import Mathlib

/-!
Verification of the daily fire-behaviour model (Rothermel/Thonicke-family
equations). The definitions below are a shallow embedding, over `ℝ`, of the
Python sources:

  * `src/fuel_types.py`            — the fuel-class enumeration;
  * `src/fire_params.py`           — the parameter structure;
  * `src/fire_model/fire_weather_class.py` and
    `src/fire_model/nesterov_fire_weather.py` — the fire-weather hierarchy;
  * `src/fire_model/fuel_class.py` — the `Fuel` state and its methods;
  * `src/fire_model/fire_equations.py` — the equation library;
  * `src/fire_model/main_model.py` — the daily driver.

Numpy arrays of length `NUM_FUEL_CLASSES` become `Fin 6 → ℝ`; mutating
methods become functions returning the new state; code that can raise a
Python exception returns `Except String`.
-/

noncomputable section

/-! ### Fuel types (`src/fuel_types.py`) -/

def NUM_FUEL_CLASSES : ℕ := 6

/-- `FuelType.TWIGS.value = 0`. -/
def TWIGS : Fin 6 := 0

/-- `FuelType.SMALL_BRANCHES.value = 1`. -/
def SMALL_BRANCHES : Fin 6 := 1

/-- `FuelType.LARGE_BRANCHES.value = 2`. -/
def LARGE_BRANCHES : Fin 6 := 2

/-- `FuelType.TRUNKS.value = 3`. -/
def TRUNKS : Fin 6 := 3

/-- `FuelType.DEAD_LEAVES.value = 4`. -/
def DEAD_LEAVES : Fin 6 := 4

/-- `FuelType.LIVE_GRASS.value = 5`. -/
def LIVE_GRASS : Fin 6 := 5

/-- `np.clip(x, lo, hi)` for scalars: `min(max(x, lo), hi)`. -/
def np_clip (x lo hi : ℝ) : ℝ := min hi (max lo x)

/-! ### Parameters (`src/fire_params.py`, dataclass `FireParams`) -/

structure FireParams where
  bulk_density : Fin 6 → ℝ
  sav : Fin 6 → ℝ
  min_moisture : Fin 6 → ℝ
  mid_moisture : Fin 6 → ℝ
  mid_moisture_coeff : Fin 6 → ℝ
  mid_moisture_slope : Fin 6 → ℝ
  low_moisture_coeff : Fin 6 → ℝ
  low_moisture_slope : Fin 6 → ℝ
  cwd_frac : Fin 4 → ℝ
  miner_total : ℝ
  mineral_dampening : ℝ
  fuel_energy : ℝ
  max_duration : ℝ
  duration_slope : ℝ

/-! ### Fire weather (`src/fire_model/fire_weather_class.py`,
`src/fire_model/nesterov_fire_weather.py`)

The Python code has an abstract base class `FireWeather` with one concrete
subclass in the repository, `NesterovFireWeather`.  `Fuel.compute_moisture`
branches on `isinstance(fire_weather, NesterovFireWeather)`, so the embedding
is an inductive type with a `nesterov` constructor and an `otherModel`
constructor standing for an instance of any other (hypothetical) subclass of
the base class; `typeName` is the name of that subclass as rendered by
`type(fire_weather)`.  Both classes carry the instance attributes
`fire_weather_index` and `effective_windspeed` set in `FireWeather.__init__`.
-/

inductive FireWeather where
  | nesterov (fire_weather_index effective_windspeed : ℝ)
  | otherModel (typeName : String) (fire_weather_index effective_windspeed : ℝ)

def FireWeather.fire_weather_index : FireWeather → ℝ
  | .nesterov i _ => i
  | .otherModel _ i _ => i

def FireWeather.effective_windspeed : FireWeather → ℝ
  | .nesterov _ w => w
  | .otherModel _ _ w => w

def FireWeather.typeName : FireWeather → String
  | .nesterov _ _ => "NesterovFireWeather"
  | .otherModel n _ _ => n

/-- Dewpoint constant `DEWPOINT_A` in `nesterov_fire_weather.py`. -/
def DEWPOINT_A : ℝ := 17.62

/-- Dewpoint constant `DEWPOINT_B` in `nesterov_fire_weather.py`. -/
def DEWPOINT_B : ℝ := 243.12

/-- `NesterovFireWeather.MIN_PRECIP_THRESH`. -/
def MIN_PRECIP_THRESH : ℝ := 3.0

/-- `NesterovFireWeather.dewpoint` (static method). -/
def dewpoint (tempc rh : ℝ) : ℝ :=
  let yipsolon := Real.log (max 1 rh / 100) + DEWPOINT_A * tempc / (DEWPOINT_B + tempc)
  DEWPOINT_B * yipsolon / (DEWPOINT_A - yipsolon)

/-- `NesterovFireWeather.calc_nesterov_index` (static method). -/
def calc_nesterov_index (tempc tdew : ℝ) : ℝ := max 0 ((tempc - tdew) * tempc)

/-- `NesterovFireWeather.update_index`, acting on the scalar state
`self.fire_weather_index` (`fwi` is its value before the call, the result its
value after). -/
def NesterovFireWeather.update_index (fwi temp_c precip rh : ℝ) : ℝ :=
  let rh_clamped := np_clip rh 0 100
  if MIN_PRECIP_THRESH < precip then 0
  else fwi + calc_nesterov_index temp_c (dewpoint temp_c rh_clamped)

/-- `update_index` lifted to the class hierarchy.  The base-class method is
abstract; `NesterovFireWeather` is the only override in the repository, so on
`otherModel` (an unknown subclass outside the repository) the state is left
untouched — the daily driver below fails before this choice could matter. -/
def FireWeather.update_index : FireWeather → ℝ → ℝ → ℝ → FireWeather
  | .nesterov fwi ews, t, p, rh => .nesterov (NesterovFireWeather.update_index fwi t p rh) ews
  | .otherModel n fwi ews, _, _, _ => .otherModel n fwi ews

/-- `FireWeather.WIND_ATTEN_TREED`. -/
def WIND_ATTEN_TREED : ℝ := 0.4

/-- `FireWeather.WIND_ATTEN_GRASS`. -/
def WIND_ATTEN_GRASS : ℝ := 0.6

/-- `FireWeather.update_effective_windspeed` (concrete method of the base
class, shared by every subclass). -/
def FireWeather.update_effective_windspeed (fw : FireWeather)
    (wind_speed tree_fraction grass_fraction bare_fraction : ℝ) : FireWeather :=
  let ews := wind_speed *
    (tree_fraction * WIND_ATTEN_TREED + (grass_fraction + bare_fraction) * WIND_ATTEN_GRASS)
  match fw with
  | .nesterov fwi _ => .nesterov fwi ews
  | .otherModel n fwi _ => .otherModel n fwi ews

/-! ### Fuel state (`src/fire_model/fuel_class.py`) -/

structure Fuel where
  params : FireParams
  loading : Fin 6 → ℝ
  effective_moisture : Fin 6 → ℝ
  frac_loading : Fin 6 → ℝ
  frac_burnt : Fin 6 → ℝ
  non_trunk_loading : ℝ
  average_moisture_notrunks : ℝ
  bulk_density_notrunks : ℝ
  sav_notrunks : ℝ
  mef_notrunks : ℝ

/-- `Fuel.__init__`: all arrays and scalars start at zero. -/
def Fuel.init (params : FireParams) : Fuel :=
  { params := params
    loading := fun _ => 0
    effective_moisture := fun _ => 0
    frac_loading := fun _ => 0
    frac_burnt := fun _ => 0
    non_trunk_loading := 0
    average_moisture_notrunks := 0
    bulk_density_notrunks := 0
    sav_notrunks := 0
    mef_notrunks := 0 }

/-- `Fuel.update_loading`: set the loading of each fuel class from the
caller-supplied litter values. -/
def Fuel.update_loading (f : Fuel)
    (leaf_litter twig_litter small_branch_litter large_branch_litter
      trunk_litter live_grass : ℝ) : Fuel :=
  { f with loading := fun i =>
      if i = DEAD_LEAVES then leaf_litter
      else if i = TWIGS then twig_litter
      else if i = SMALL_BRANCHES then small_branch_litter
      else if i = LARGE_BRANCHES then large_branch_litter
      else if i = LIVE_GRASS then live_grass
      else trunk_litter }

/-- `Fuel.sum_loading`: `non_trunk_loading` is the sum of the loadings over
the masked array excluding `TRUNKS`. -/
def Fuel.sum_loading (f : Fuel) : Fuel :=
  { f with non_trunk_loading := ∑ i : Fin 6, if i = TRUNKS then 0 else f.loading i }

/-- `Fuel.calculate_fractional_loading`: first calls `sum_loading`; if the
non-trunk total is positive, each non-trunk class gets its share of it and
the trunk entry is zeroed, otherwise every fraction is zeroed and
`non_trunk_loading` is reset to `0.0`. -/
def Fuel.calculate_fractional_loading (f0 : Fuel) : Fuel :=
  let f := f0.sum_loading
  if 0 < f.non_trunk_loading then
    { f with frac_loading := fun i =>
        if i = TRUNKS then 0 else f.loading i / f.non_trunk_loading }
  else
    { f with frac_loading := fun _ => 0, non_trunk_loading := 0 }

/-- `Fuel.moisture_of_extinction` (static method):
`MEF_a - MEF_b * log sav` with `MEF_a = 0.524`, `MEF_b = 0.066`. -/
def moisture_of_extinction (sav : ℝ) : ℝ := 0.524 - 0.066 * Real.log sav

/-- `Fuel._compute_moisture_nesterov`: per-class moisture
`exp (-alpha_FMC * NI)` where `alpha_FMC = sav_fuel[i] / drying_ratio`,
except that `LIVE_GRASS` uses the `TWIGS` SAV value.  The method also writes
the result into `self.effective_moisture` before returning it. -/
def Fuel.compute_moisture_nesterov (f : Fuel) (sav_fuel : Fin 6 → ℝ)
    (drying_ratio NI : ℝ) : (Fin 6 → ℝ) × Fuel :=
  let moisture : Fin 6 → ℝ := fun i =>
    let alpha_FMC := (if i = LIVE_GRASS then sav_fuel TWIGS else sav_fuel i) / drying_ratio
    Real.exp (-alpha_FMC * NI)
  (moisture, { f with effective_moisture := moisture })

/-- `Fuel.compute_moisture`: dispatch on the runtime type of `fire_weather`.
The Nesterov branch delegates to `compute_moisture_nesterov`; every other
`FireWeather` instance raises
`NotImplementedError("Moisture computation not implemented for <type>")`. -/
def Fuel.compute_moisture (f : Fuel) (sav_fuel : Fin 6 → ℝ) (drying_ratio : ℝ)
    (fire_weather : FireWeather) : Except String ((Fin 6 → ℝ) × Fuel) :=
  match fire_weather with
  | .nesterov fwi _ =>
      .ok (f.compute_moisture_nesterov sav_fuel drying_ratio fwi)
  | .otherModel n _ _ =>
      .error ("Moisture computation not implemented for " ++ n)

/-- `Fuel.update_fuel_moisture`.  When the total loading (non-trunk plus
trunk) is positive it computes the per-class moisture via the
`compute_moisture` dispatch, the per-class moisture of extinction, the
effective moisture, and then accumulates the two weighted scalars in a loop
over `i` guarded by the literal source test `(i + 1) != FuelType.TRUNKS.value`
(fuel_class.py line 92).  Otherwise it zeroes the moisture outputs. -/
def Fuel.update_fuel_moisture (f : Fuel) (sav_fuel : Fin 6 → ℝ)
    (drying_ratio : ℝ) (fire_weather : FireWeather) : Except String Fuel :=
  let total_loading := f.non_trunk_loading + f.loading TRUNKS
  if 0 < total_loading then
    match f.compute_moisture sav_fuel drying_ratio fire_weather with
    | .error e => .error e
    | .ok (moisture, f1) =>
      let moisture_of_ext : Fin 6 → ℝ := fun i => moisture_of_extinction (sav_fuel i)
      let f2 := { f1 with effective_moisture := fun i => moisture i / moisture_of_ext i }
      let avg := ∑ i : Fin 6,
        if i.val + 1 ≠ TRUNKS.val then f2.frac_loading i * moisture i else 0
      let mef := ∑ i : Fin 6,
        if i.val + 1 ≠ TRUNKS.val then f2.frac_loading i * moisture_of_ext i else 0
      .ok { f2 with average_moisture_notrunks := avg, mef_notrunks := mef }
  else
    .ok { f with effective_moisture := fun _ => 0
                 average_moisture_notrunks := 0
                 mef_notrunks := 0 }

/-- `Fuel.average_bulk_density_no_trunks`: loading-weighted mean of the
parameter bulk densities over non-trunk classes, falling back to the simple
mean over all classes when `non_trunk_loading` is not positive. -/
def Fuel.average_bulk_density_no_trunks (f : Fuel) : Fuel :=
  if 0 < f.non_trunk_loading then
    { f with bulk_density_notrunks :=
        ∑ i : Fin 6, if i = TRUNKS then 0 else f.frac_loading i * f.params.bulk_density i }
  else
    { f with bulk_density_notrunks := (∑ i : Fin 6, f.params.bulk_density i) / NUM_FUEL_CLASSES }

/-- `Fuel.average_sav_no_trunks`: same aggregation for the SAV parameters. -/
def Fuel.average_sav_no_trunks (f : Fuel) : Fuel :=
  if 0 < f.non_trunk_loading then
    { f with sav_notrunks :=
        ∑ i : Fin 6, if i = TRUNKS then 0 else f.frac_loading i * f.params.sav i }
  else
    { f with sav_notrunks := (∑ i : Fin 6, f.params.sav i) / NUM_FUEL_CLASSES }

/-- The per-class regime value written into `frac_burnt` by the masked numpy
assignments in `Fuel.calculate_fraction_burnt`.  The array starts at zero and
then gets, in this order, the very-dry mask (`m ≤ min_moisture`, value 1),
the low mask (`min_moisture < m ≤ mid_moisture`, value
`clip(low_moisture_coeff - low_moisture_slope*m, 0, 1)`), and the mid mask
(`mid_moisture < m ≤ 1`, value `clip(mid_moisture_coeff -
mid_moisture_slope*m, 0, 1)`); where masks overlap the later assignment
wins, so the mid mask takes precedence, then the low mask, then the dry
mask; a class matching no mask keeps the initial 0. -/
def frac_burnt_base (minm midm lc ls mc ms m : ℝ) : ℝ :=
  if midm < m ∧ m ≤ 1 then np_clip (mc - ms * m) 0 1
  else if minm < m ∧ m ≤ midm then np_clip (lc - ls * m) 0 1
  else if m ≤ minm then 1
  else 0

/-- `Fuel.calculate_fraction_burnt`: the masked per-class regime function
applied to `effective_moisture`, then the `LIVE_GRASS` entry capped at
`MAX_GRASS_FRAC = 0.8`, then every entry scaled by `1 - miner_total`. -/
def Fuel.calculate_fraction_burnt (f : Fuel) : Fuel :=
  let rm := f.effective_moisture
  let masked : Fin 6 → ℝ := fun i =>
    frac_burnt_base (f.params.min_moisture i) (f.params.mid_moisture i)
      (f.params.low_moisture_coeff i) (f.params.low_moisture_slope i)
      (f.params.mid_moisture_coeff i) (f.params.mid_moisture_slope i) (rm i)
  let capped : Fin 6 → ℝ := fun i =>
    if i = LIVE_GRASS then min 0.8 (masked i) else masked i
  { f with frac_burnt := fun i => capped i * (1 - f.params.miner_total) }

/-- `Fuel.calculate_fuel_consumed`: elementwise `frac_burnt * loading`. -/
def Fuel.calculate_fuel_consumed (f : Fuel) : Fin 6 → ℝ :=
  fun i => f.frac_burnt i * f.loading i

/-! ### Equation library (`src/fire_model/fire_equations.py`)

Only the equations the claims and the daily driver reach are embedded.
The Python power `x ** y` on positive floats is `Real.rpow`. -/

/-- `FireEquations.maximum_reaction_velocity`. -/
def maximum_reaction_velocity (SAV : ℝ) : ℝ :=
  if SAV < 0 then 0 else 1 / (0.0591 + 2.926 * SAV ^ (-1.5 : ℝ))

/-- `FireEquations.optimum_reaction_velocity`. -/
def optimum_reaction_velocity (max_vel SAV beta_ratio : ℝ) : ℝ :=
  let a := 8.9033 * SAV ^ (-0.7913 : ℝ)
  max_vel * beta_ratio ^ a * Real.exp (a * (1 - beta_ratio))

/-- `FireEquations.propagating_flux`. -/
def propagating_flux (beta sav : ℝ) : ℝ :=
  Real.exp ((0.792 + 3.7597 * sav ^ (0.5 : ℝ)) * (beta + 0.1)) / (192.0 + 7.9095 * sav)

/-- `FireEquations.fire_intensity`. -/
def fire_intensity (fuel_consumed ros fuel_energy : ℝ) : ℝ :=
  fuel_energy * fuel_consumed * ros

/-! ### Daily driver (`src/fire_model/main_model.py`)

Three calls in the driver refer to attributes that exist nowhere in the
repository, and one method call has the wrong arity; Python raises at run
time, which the embedding models with `Except.error`:

  * `update_fire_weather` (line 138) calls
    `fire_weather.update_fire_danger_index(fdi_alpha)`, but no class in the
    repository defines a method or attribute named `update_fire_danger_index`
    (`fire_weather_class.py` defines only `update_index` and
    `update_effective_windspeed`; `nesterov_fire_weather.py` adds `dewpoint`
    and `calc_nesterov_index`) — `AttributeError`;
  * `update_fuel_characteristics` (line 179) calls
    `fuel.update_fuel_moisture(fire_weather)`, but
    `Fuel.update_fuel_moisture(self, sav_fuel, drying_ratio, fire_weather)`
    requires three arguments — `TypeError`;
  * `calculate_rate_of_spread` (line 741 region) reads
    `fuel.params.particle_density`, a field the `FireParams` dataclass does
    not declare — `AttributeError`;
  * `calculate_area_burnt` reads `fire_weather.fire_danger_index`, an
    attribute no `__init__` or method ever assigns — `AttributeError`.
-/

/-- `main_model.update_fire_weather`: update the index, update the effective
windspeed, then call `fire_weather.update_fire_danger_index(fdi_alpha)` — a
method no class in the repository defines, so the attribute lookup raises
`AttributeError` on every call. -/
def update_fire_weather (tempc precip rh wind_speed tree_fraction grass_fraction
    bare_fraction _fdi_alpha : ℝ) (fire_weather : FireWeather) : Except String FireWeather :=
  let fw1 := fire_weather.update_index tempc precip rh
  let _fw2 := fw1.update_effective_windspeed wind_speed tree_fraction grass_fraction bare_fraction
  .error "AttributeError: NesterovFireWeather object has no attribute update_fire_danger_index"

/-- `main_model.update_fuel_characteristics`: after updating and normalising
the loadings, the call `fuel.update_fuel_moisture(fire_weather)` supplies one
argument to a method of three and raises `TypeError` before the moisture (or
the geometric aggregates below it) can be computed. -/
def update_fuel_characteristics (leaf_litter twig_litter small_branch_litter
    large_branch_litter trunk_litter live_grass : ℝ) (fuel : Fuel)
    (_fire_weather : FireWeather) : Except String Fuel :=
  let f1 := fuel.update_loading leaf_litter twig_litter small_branch_litter
      large_branch_litter trunk_litter live_grass
  let _f2 := f1.sum_loading.calculate_fractional_loading
  .error "TypeError: update_fuel_moisture() missing 2 required positional arguments drying_ratio and fire_weather"

/-- `main_model.calculate_rate_of_spread`: returns `(0, 0)` when there is no
non-trunk fuel; otherwise its first expression,
`beta = fuel.bulk_density_notrunks / fuel.params.particle_density`, reads a
field the `FireParams` dataclass does not declare and raises
`AttributeError` before any of the spread equations run. -/
def calculate_rate_of_spread (_wind_speed : ℝ) (fuel : Fuel)
    (_fire_weather : FireWeather) : Except String (ℝ × ℝ) :=
  if fuel.non_trunk_loading ≤ 0 then .ok (0, 0)
  else .error "AttributeError: FireParams object has no attribute particle_density"

/-- `main_model.calculate_surface_fire_intensity`: fraction burnt, fuel
consumed, sum over all classes minus the trunk entry, then the intensity
equation with the carbon (0.45) and minutes-to-seconds (60) conversions. -/
def calculate_surface_fire_intensity (rate_of_spread : ℝ) (fuel : Fuel) : ℝ × Fuel :=
  let f1 := fuel.calculate_fraction_burnt
  let fuel_consumed := f1.calculate_fuel_consumed
  let total_fuel_consumed_no_trunks :=
    (∑ i : Fin 6, fuel_consumed i) - fuel_consumed TRUNKS
  (fire_intensity (total_fuel_consumed_no_trunks / 0.45) (rate_of_spread / 60)
      f1.params.fuel_energy, f1)

/-- `main_model.calculate_area_burnt`: its first expression reads
`fire_weather.fire_danger_index`, an instance attribute no `__init__` or
method in the repository ever assigns, and raises `AttributeError`. -/
def calculate_area_burnt (_fire_weather : FireWeather) (_num_ignitions _max_duration
    _duration_slope _tree_fraction _ros_back _ros_front : ℝ) : Except String ℝ :=
  .error "AttributeError: NesterovFireWeather object has no attribute fire_danger_index"

/-- `main_model.daily_fire_model`: the fixed daily sequence — fire-weather
update, fuel update, rate of spread, intensity, area burnt — returning
`(area_burnt, fire_intensity, ros_front)`. -/
def daily_fire_model (tempc precip rh wind_speed num_ignitions tree_fraction
    grass_fraction bare_fraction fdi_alpha leaf_litter twig_litter
    small_branch_litter large_branch_litter trunk_litter live_grass
    max_duration duration_slope : ℝ) (fuel : Fuel) (fire_weather : FireWeather) :
    Except String (ℝ × ℝ × ℝ) := do
  let fw1 ← update_fire_weather tempc precip rh wind_speed tree_fraction
      grass_fraction bare_fraction fdi_alpha fire_weather
  let fuel1 ← update_fuel_characteristics leaf_litter twig_litter
      small_branch_litter large_branch_litter trunk_litter live_grass fuel fw1
  let ros ← calculate_rate_of_spread wind_speed fuel1 fw1
  let (intensity, fuel2) := calculate_surface_fire_intensity ros.1 fuel1
  let area ← calculate_area_burnt fw1 num_ignitions max_duration duration_slope
      tree_fraction ros.2 ros.1
  let _ := fuel2
  return (area, intensity, ros.1)

/-! ### Small facts about `np_clip` used below -/

lemma np_clip01_nonneg (x : ℝ) : 0 ≤ np_clip x 0 1 :=
  le_min (by norm_num) (le_max_left 0 x)

lemma np_clip01_le_one (x : ℝ) : np_clip x 0 1 ≤ 1 := min_le_left 1 _

lemma np_clip01_mono {x y : ℝ} (h : x ≤ y) : np_clip x 0 1 ≤ np_clip y 0 1 :=
  min_le_min le_rfl (max_le_max le_rfl h)

/-! ### Claims -/

/-- Claim C9: for every positive SAV and every maximum reaction velocity,
`optimum_reaction_velocity max_vel SAV 1` equals `max_vel` exactly: the
reaction-velocity curve attains its peak value at relative packing ratio 1. -/
theorem claim_C9_reaction_velocity_peak (SAV max_vel : ℝ) (_hSAV : 0 < SAV) :
    optimum_reaction_velocity max_vel SAV 1 = max_vel := by
  simp [optimum_reaction_velocity, Real.one_rpow]

/-- Witness for C9 at `SAV = 2`, `max_vel = 7`. -/
theorem claim_C9_witness : optimum_reaction_velocity 7 2 1 = 7 :=
  claim_C9_reaction_velocity_peak 2 7 (by norm_num)

/-- Claim C3: for every prior Nesterov index value and all weather inputs,
`update_index` resets the index to exactly 0 when `precip > 3.0`, and
otherwise increases it by `max 0 ((tempC - dewpoint) * tempC)` with the
relative humidity clamped to `[0, 100]` before the dewpoint is computed. -/
theorem claim_C3_nesterov_update (fwi temp_c precip rh : ℝ) :
    (3 < precip → NesterovFireWeather.update_index fwi temp_c precip rh = 0) ∧
    (precip ≤ 3 →
      NesterovFireWeather.update_index fwi temp_c precip rh =
        fwi + max 0 ((temp_c - dewpoint temp_c (min 100 (max 0 rh))) * temp_c)) := by
  constructor
  · intro h
    simp only [NesterovFireWeather.update_index, MIN_PRECIP_THRESH]
    rw [if_pos (show (3.0:ℝ) < precip by linarith)]
  · intro h
    simp only [NesterovFireWeather.update_index, MIN_PRECIP_THRESH]
    rw [if_neg (not_lt.mpr (show precip ≤ (3.0:ℝ) by linarith))]
    simp [calc_nesterov_index, np_clip]

/-- Witness for C3: a day with 10 mm of rain resets a prior index of 5 to 0. -/
theorem claim_C3_witness : NesterovFireWeather.update_index 5 30 10 50 = 0 :=
  (claim_C3_nesterov_update 5 30 10 50).1 (by norm_num)

/-- Claim C10: at 100 percent relative humidity the dewpoint equals the air
temperature exactly (for any temperature above −243.12 °C, the pole of the
Magnus formula), so a saturated day with at most 3 mm of rain leaves the
Nesterov index unchanged. -/
theorem claim_C10_saturated_day (temp_c : ℝ) (ht : -243.12 < temp_c) :
    dewpoint temp_c 100 = temp_c ∧
    ∀ fwi precip rh : ℝ, 100 ≤ rh → precip ≤ 3 →
      NesterovFireWeather.update_index fwi temp_c precip rh = fwi := by
  have hBt : (243.12:ℝ) + temp_c ≠ 0 := ne_of_gt (by linarith)
  have hdew : dewpoint temp_c 100 = temp_c := by
    simp only [dewpoint, DEWPOINT_A, DEWPOINT_B]
    rw [show max 1 (100:ℝ) / 100 = 1 by norm_num, Real.log_one, zero_add]
    have h2 : (17.62:ℝ) - 17.62 * temp_c / (243.12 + temp_c) =
        17.62 * 243.12 / (243.12 + temp_c) := by
      field_simp
      ring
    rw [h2]
    have h3 : (17.62:ℝ) * 243.12 / (243.12 + temp_c) ≠ 0 :=
      div_ne_zero (by norm_num) hBt
    field_simp
    ring
  refine ⟨hdew, fun fwi precip rh hrh hp => ?_⟩
  have hclamp : np_clip rh 0 100 = 100 := by
    unfold np_clip
    rw [max_eq_right (by linarith : (0:ℝ) ≤ rh), min_eq_left hrh]
  simp only [NesterovFireWeather.update_index, MIN_PRECIP_THRESH, hclamp]
  rw [if_neg (not_lt.mpr (show precip ≤ (3.0:ℝ) by linarith)), hdew]
  simp [calc_nesterov_index]

/-- Witness for C10 at 30 °C: the dewpoint is 30 °C and a saturated rainless
day leaves a prior index of 5 unchanged. -/
theorem claim_C10_witness :
    dewpoint 30 100 = 30 ∧ NesterovFireWeather.update_index 5 30 0 100 = 5 :=
  ⟨(claim_C10_saturated_day 30 (by norm_num)).1,
    (claim_C10_saturated_day 30 (by norm_num)).2 5 0 100 (by norm_num) (by norm_num)⟩

/-- `FireParams.zeros` (classmethod): every array and scalar zero. -/
def FireParams.zeros : FireParams :=
  { bulk_density := fun _ => 0
    sav := fun _ => 0
    min_moisture := fun _ => 0
    mid_moisture := fun _ => 0
    mid_moisture_coeff := fun _ => 0
    mid_moisture_slope := fun _ => 0
    low_moisture_coeff := fun _ => 0
    low_moisture_slope := fun _ => 0
    cwd_frac := fun _ => 0
    miner_total := 0
    mineral_dampening := 0
    fuel_energy := 0
    max_duration := 0
    duration_slope := 0 }

/-- Claim C6: for every fuel state and every fire-weather instance that is
not a `NesterovFireWeather`, the `compute_moisture` dispatch raises the
explicit "not implemented for this weather model" error instead of returning
a moisture array, and `update_fuel_moisture` propagates that error whenever
it invokes the dispatch (i.e. whenever the total loading is positive). -/
theorem claim_C6_moisture_dispatch_fails (f : Fuel) (sav_fuel : Fin 6 → ℝ)
    (drying_ratio : ℝ) (fw : FireWeather)
    (h : ∀ ni ews, fw ≠ FireWeather.nesterov ni ews) :
    f.compute_moisture sav_fuel drying_ratio fw =
      Except.error ("Moisture computation not implemented for " ++ fw.typeName) ∧
    (0 < f.non_trunk_loading + f.loading TRUNKS →
      f.update_fuel_moisture sav_fuel drying_ratio fw =
        Except.error ("Moisture computation not implemented for " ++ fw.typeName)) := by
  cases fw with
  | nesterov ni ews => exact absurd rfl (h ni ews)
  | otherModel n fwi ews =>
    refine ⟨rfl, fun hpos => ?_⟩
    unfold Fuel.update_fuel_moisture
    rw [if_pos hpos]
    rfl

/-- Witness for C6: a fuel with unit loadings and a hypothetical
`CustomFireWeather` instance. -/
theorem claim_C6_witness :
    ((Fuel.init FireParams.zeros).update_loading 1 1 1 1 1 1).sum_loading.compute_moisture
        (fun _ => 1) 1 (FireWeather.otherModel "CustomFireWeather" 0 0) =
      Except.error ("Moisture computation not implemented for " ++
        (FireWeather.otherModel "CustomFireWeather" 0 0).typeName) ∧
    ((Fuel.init FireParams.zeros).update_loading 1 1 1 1 1 1).sum_loading.update_fuel_moisture
        (fun _ => 1) 1 (FireWeather.otherModel "CustomFireWeather" 0 0) =
      Except.error ("Moisture computation not implemented for " ++
        (FireWeather.otherModel "CustomFireWeather" 0 0).typeName) := by
  have h := claim_C6_moisture_dispatch_fails
    (((Fuel.init FireParams.zeros).update_loading 1 1 1 1 1 1).sum_loading)
    (fun _ => 1) 1 (FireWeather.otherModel "CustomFireWeather" 0 0)
    (fun ni ews hc => FireWeather.noConfusion hc)
  refine ⟨h.1, h.2 ?_⟩
  show (0:ℝ) <
    (((Fuel.init FireParams.zeros).update_loading 1 1 1 1 1 1).sum_loading.non_trunk_loading
      + ((Fuel.init FireParams.zeros).update_loading 1 1 1 1 1 1).sum_loading.loading TRUNKS)
  simp only [Fuel.sum_loading, Fuel.update_loading, Fuel.init, Fin.sum_univ_six]
  simp only [TWIGS, SMALL_BRANCHES, LARGE_BRANCHES, TRUNKS, DEAD_LEAVES, LIVE_GRASS]
  simp
  norm_num

/-- Claim C2 (code evaluation): for every weather input, land-cover
fraction, litter loading, fuel state and Nesterov fire-weather instance,
`daily_fire_model` does not complete: it stops with the `AttributeError`
raised by `update_fire_weather` calling the non-existent
`update_fire_danger_index`, so it never returns the
`(area_burnt, fire_intensity, forward_rate_of_spread)` tuple. -/
theorem claim_C2_daily_fire_model_raises (tempc precip rh wind_speed num_ignitions
    tree_fraction grass_fraction bare_fraction fdi_alpha leaf_litter twig_litter
    small_branch_litter large_branch_litter trunk_litter live_grass
    max_duration duration_slope fwi ews : ℝ) (fuel : Fuel) :
    daily_fire_model tempc precip rh wind_speed num_ignitions tree_fraction
        grass_fraction bare_fraction fdi_alpha leaf_litter twig_litter
        small_branch_litter large_branch_litter trunk_litter live_grass
        max_duration duration_slope fuel (FireWeather.nesterov fwi ews) =
      Except.error
        "AttributeError: NesterovFireWeather object has no attribute update_fire_danger_index" :=
  rfl

/-- Claim C7: after `calculate_fractional_loading`, the trunk fraction is 0;
when the non-trunk loading is positive every non-trunk fraction is
`loading[c] / non_trunk_loading` and the non-trunk fractions sum to exactly
1; when it is not positive every fraction is 0. -/
theorem claim_C7_fractional_loading (f : Fuel) :
    (f.calculate_fractional_loading).frac_loading TRUNKS = 0 ∧
    (0 < (f.calculate_fractional_loading).non_trunk_loading →
      (∀ i, i ≠ TRUNKS → (f.calculate_fractional_loading).frac_loading i =
          f.loading i / (f.calculate_fractional_loading).non_trunk_loading) ∧
      (∑ i : Fin 6, if i = TRUNKS then (0:ℝ)
        else (f.calculate_fractional_loading).frac_loading i) = 1) ∧
    ((f.calculate_fractional_loading).non_trunk_loading ≤ 0 →
      ∀ i, (f.calculate_fractional_loading).frac_loading i = 0) := by
  unfold Fuel.calculate_fractional_loading
  by_cases h : 0 < (f.sum_loading).non_trunk_loading
  · rw [if_pos h]
    have hS : (f.sum_loading).non_trunk_loading ≠ 0 := ne_of_gt h
    refine ⟨by simp, fun _ => ⟨fun i hi => by simp [hi, Fuel.sum_loading], ?_⟩,
      fun habs => absurd h (not_lt.mpr habs)⟩
    have key : (∑ i : Fin 6, if i = TRUNKS then (0:ℝ)
          else (if i = TRUNKS then (0:ℝ)
            else f.loading i / (f.sum_loading).non_trunk_loading))
        = (∑ i : Fin 6, if i = TRUNKS then (0:ℝ) else f.loading i)
            / (f.sum_loading).non_trunk_loading := by
      rw [Finset.sum_div]
      refine Finset.sum_congr rfl fun i _ => ?_
      by_cases hi : i = TRUNKS
      · simp [hi]
      · simp [hi]
    show (∑ i : Fin 6, if i = TRUNKS then (0:ℝ)
      else (if i = TRUNKS then (0:ℝ)
        else f.loading i / (f.sum_loading).non_trunk_loading)) = 1
    rw [key]
    exact div_self hS
  · rw [if_neg h]
    exact ⟨rfl, fun h0 => absurd h0 (by norm_num), fun _ i => rfl⟩

/-- Witness for C7: with unit loadings the trunk fraction is 0 and the
non-trunk fractions sum to 1. -/
theorem claim_C7_witness :
    (((Fuel.init FireParams.zeros).update_loading 1 1 1 1 1 1).calculate_fractional_loading).frac_loading
        TRUNKS = 0 ∧
    (∑ i : Fin 6, if i = TRUNKS then (0:ℝ)
      else (((Fuel.init FireParams.zeros).update_loading 1 1 1 1 1 1).calculate_fractional_loading).frac_loading i)
      = 1 := by
  have h := claim_C7_fractional_loading ((Fuel.init FireParams.zeros).update_loading 1 1 1 1 1 1)
  have hsum : (((Fuel.init FireParams.zeros).update_loading 1 1 1 1 1 1).sum_loading).non_trunk_loading
      = 5 := by
    simp only [Fuel.sum_loading, Fuel.update_loading, Fuel.init, Fin.sum_univ_six]
    simp only [TWIGS, SMALL_BRANCHES, LARGE_BRANCHES, TRUNKS, DEAD_LEAVES, LIVE_GRASS]
    simp
    norm_num
  have hpos : 0 < (((Fuel.init FireParams.zeros).update_loading 1 1 1 1 1 1).calculate_fractional_loading).non_trunk_loading := by
    unfold Fuel.calculate_fractional_loading
    rw [if_pos (show (0:ℝ) <
      (((Fuel.init FireParams.zeros).update_loading 1 1 1 1 1 1).sum_loading).non_trunk_loading
        by rw [hsum]; norm_num)]
    show (0:ℝ) < (((Fuel.init FireParams.zeros).update_loading 1 1 1 1 1 1).sum_loading).non_trunk_loading
    rw [hsum]; norm_num
  exact ⟨h.1, (h.2.1 hpos).2⟩

/-- A concrete fuel state with unit loading in every class (exactly the state
`update_loading(1,...,1)` followed by `calculate_fractional_loading`
produces): `non_trunk_loading = 5` and every non-trunk fraction `1/5`. -/
def fuelC1 : Fuel :=
  { Fuel.init FireParams.zeros with
      loading := fun _ => 1
      frac_loading := fun i => if i = TRUNKS then 0 else 1/5
      non_trunk_loading := 5 }

/-- Claim C1 (code evaluation at the failing input): with unit fractional
loadings, unit SAV, unit drying ratio and Nesterov index 0 (so every
per-class moisture is `exp 0 = 1`), `update_fuel_moisture` stores
`average_moisture_notrunks = 4/5` — the loop guard `(i + 1) !=
FuelType.TRUNKS.value` skips `LARGE_BRANCHES` (index 2) instead of `TRUNKS`
(index 3) — whereas the sum of `frac_loading[c] * moisture[c]` over the
non-trunk classes is 1. -/
theorem claim_C1_loop_skips_wrong_class :
    Except.map Fuel.average_moisture_notrunks
        (fuelC1.update_fuel_moisture (fun _ => 1) 1 (FireWeather.nesterov 0 0))
      = Except.ok (4/5 : ℝ) ∧
    (∑ i : Fin 6, if i = TRUNKS then (0:ℝ)
      else fuelC1.frac_loading i * (fuelC1.compute_moisture_nesterov (fun _ => 1) 1 0).1 i) = 1 ∧
    (4/5 : ℝ) ≠ 1 := by
  refine ⟨?_, ?_, by norm_num⟩
  · unfold Fuel.update_fuel_moisture
    rw [if_pos (show (0:ℝ) < fuelC1.non_trunk_loading + fuelC1.loading TRUNKS by
      norm_num [fuelC1, Fuel.init])]
    simp only [Fuel.compute_moisture, Fuel.compute_moisture_nesterov, Except.map]
    congr 1
    simp only [fuelC1, Fuel.init, Fin.sum_univ_six]
    simp only [TRUNKS, LIVE_GRASS, TWIGS]
    simp only [show ((3:Fin 6).val) = 3 from rfl, show ((4:Fin 6).val) = 4 from rfl,
      show ((5:Fin 6).val) = 5 from rfl]
    simp
    norm_num
  · simp only [fuelC1, Fuel.init, Fuel.compute_moisture_nesterov, Fin.sum_univ_six]
    simp only [TRUNKS, LIVE_GRASS, TWIGS]
    simp
    norm_num

/-! ### Claim C5: propagating flux is positive and monotone in both arguments -/

/-- Quadratic-lower-bound inequality behind the SAV-monotonicity of the
propagating flux, in terms of `t = sqrt SAV` and the exponent slope `g`. -/
lemma flux_quad_aux {t1 t2 g : ℝ} (hg : 0.3797297 ≤ g)
    (ht12 : t1 ≤ t2) (ht5 : 5 ≤ t1 ^ 2) :
    192 + 7.9095 * t2 ^ 2
      ≤ (1 + g * (t2 - t1) + (g * (t2 - t1)) ^ 2 / 2) * (192 + 7.9095 * t1 ^ 2) := by
  have hD : (0:ℝ) ≤ 192 + 7.9095 * t1 ^ 2 := by positivity
  have h1 : 15.819 * t1 ≤ g * (192 + 7.9095 * t1 ^ 2) := by
    nlinarith [mul_nonneg (sub_nonneg.mpr hg) hD, sq_nonneg (6.0069441243 * t1 - 15.819)]
  have hg2 : (0.3797297:ℝ) ^ 2 ≤ g ^ 2 := by nlinarith
  have h2 : 7.9095 ≤ g ^ 2 * (192 + 7.9095 * t1 ^ 2) / 2 := by
    nlinarith [mul_nonneg (sub_nonneg.mpr hg2) hD, ht5]
  nlinarith [mul_nonneg (sub_nonneg.mpr ht12) (sub_nonneg.mpr h1),
    mul_nonneg (mul_nonneg (sub_nonneg.mpr ht12) (sub_nonneg.mpr ht12)) (sub_nonneg.mpr h2)]

/-- `propagating_flux` is positive whenever the denominator is. -/
lemma propagating_flux_pos {beta sav : ℝ} (h5 : 5 ≤ sav) :
    0 < propagating_flux beta sav :=
  div_pos (Real.exp_pos _) (by nlinarith)

/-- `propagating_flux` is non-decreasing in the packing ratio. -/
lemma propagating_flux_mono_beta {beta1 beta2 sav : ℝ} (h5 : 5 ≤ sav)
    (h12 : beta1 ≤ beta2) :
    propagating_flux beta1 sav ≤ propagating_flux beta2 sav := by
  unfold propagating_flux
  have hden : (0:ℝ) < 192.0 + 7.9095 * sav := by nlinarith
  have hsav : (0:ℝ) ≤ sav ^ (0.5:ℝ) := Real.rpow_nonneg (by linarith) _
  have harg : (0.792 + 3.7597 * sav ^ (0.5:ℝ)) * (beta1 + 0.1)
      ≤ (0.792 + 3.7597 * sav ^ (0.5:ℝ)) * (beta2 + 0.1) := by nlinarith
  rw [div_le_div_iff hden hden]
  exact mul_le_mul_of_nonneg_right (Real.exp_le_exp.mpr harg) hden.le

/-- `propagating_flux` is non-decreasing in SAV (for `SAV ≥ 5` and packing
ratio at least 1e-3). -/
lemma propagating_flux_mono_sav {beta s1 s2 : ℝ} (hb : 0.001 ≤ beta)
    (h5 : 5 ≤ s1) (h12 : s1 ≤ s2) :
    propagating_flux beta s1 ≤ propagating_flux beta s2 := by
  have hs1 : (0:ℝ) ≤ s1 := by linarith
  have hs2 : (0:ℝ) ≤ s2 := by linarith
  have ht12 : s1 ^ (0.5:ℝ) ≤ s2 ^ (0.5:ℝ) := Real.rpow_le_rpow hs1 h12 (by norm_num)
  have hsq1 : (s1 ^ (0.5:ℝ)) ^ 2 = s1 := by
    rw [← Real.rpow_natCast (s1 ^ (0.5:ℝ)) 2, ← Real.rpow_mul hs1]
    norm_num
  have hsq2 : (s2 ^ (0.5:ℝ)) ^ 2 = s2 := by
    rw [← Real.rpow_natCast (s2 ^ (0.5:ℝ)) 2, ← Real.rpow_mul hs2]
    norm_num
  have hd1 : (0:ℝ) < 192 + 7.9095 * s1 := by nlinarith
  have hd2 : (0:ℝ) < 192 + 7.9095 * s2 := by nlinarith
  have hg : (0.3797297:ℝ) ≤ 3.7597 * (beta + 0.1) := by nlinarith
  have ht5 : (5:ℝ) ≤ (s1 ^ (0.5:ℝ)) ^ 2 := by rw [hsq1]; exact h5
  have key : 192 + 7.9095 * s2
      ≤ (1 + 3.7597 * (beta + 0.1) * (s2 ^ (0.5:ℝ) - s1 ^ (0.5:ℝ))
          + (3.7597 * (beta + 0.1) * (s2 ^ (0.5:ℝ) - s1 ^ (0.5:ℝ))) ^ 2 / 2)
          * (192 + 7.9095 * s1) := by
    have h := flux_quad_aux hg ht12 ht5
    rw [hsq1, hsq2] at h
    exact h
  have hu0 : 0 ≤ 3.7597 * (beta + 0.1) * (s2 ^ (0.5:ℝ) - s1 ^ (0.5:ℝ)) :=
    mul_nonneg (by nlinarith) (by linarith)
  have hquad := Real.quadratic_le_exp_of_nonneg hu0
  have hE : (0:ℝ) < Real.exp ((0.792 + 3.7597 * s1 ^ (0.5:ℝ)) * (beta + 0.1)) := Real.exp_pos _
  have hexp2 : Real.exp ((0.792 + 3.7597 * s2 ^ (0.5:ℝ)) * (beta + 0.1))
      = Real.exp ((0.792 + 3.7597 * s1 ^ (0.5:ℝ)) * (beta + 0.1))
        * Real.exp (3.7597 * (beta + 0.1) * (s2 ^ (0.5:ℝ) - s1 ^ (0.5:ℝ))) := by
    rw [← Real.exp_add]
    congr 1
    ring
  unfold propagating_flux
  rw [show (192.0:ℝ) = 192 from by norm_num]
  rw [div_le_div_iff hd1 hd2]
  calc Real.exp ((0.792 + 3.7597 * s1 ^ (0.5:ℝ)) * (beta + 0.1)) * (192 + 7.9095 * s2)
      ≤ Real.exp ((0.792 + 3.7597 * s1 ^ (0.5:ℝ)) * (beta + 0.1)) *
        ((1 + 3.7597 * (beta + 0.1) * (s2 ^ (0.5:ℝ) - s1 ^ (0.5:ℝ))
          + (3.7597 * (beta + 0.1) * (s2 ^ (0.5:ℝ) - s1 ^ (0.5:ℝ))) ^ 2 / 2)
          * (192 + 7.9095 * s1)) := mul_le_mul_of_nonneg_left key hE.le
    _ ≤ Real.exp ((0.792 + 3.7597 * s1 ^ (0.5:ℝ)) * (beta + 0.1)) *
        (Real.exp (3.7597 * (beta + 0.1) * (s2 ^ (0.5:ℝ) - s1 ^ (0.5:ℝ)))
          * (192 + 7.9095 * s1)) :=
        mul_le_mul_of_nonneg_left (mul_le_mul_of_nonneg_right hquad hd1.le) hE.le
    _ = Real.exp ((0.792 + 3.7597 * s2 ^ (0.5:ℝ)) * (beta + 0.1)) * (192 + 7.9095 * s1) := by
        rw [hexp2]; ring

/-- Claim C5: for SAV in [5, 120] and beta in [1e-3, 0.02], the propagating
flux is strictly positive and non-decreasing separately in beta and in SAV
on these ranges; equivalently, scaling either argument by a factor in [1, 5]
never decreases it. -/
theorem claim_C5_propagating_flux (beta sav : ℝ) (hb1 : 0.001 ≤ beta)
    (_hb2 : beta ≤ 0.02) (hs1 : 5 ≤ sav) (_hs2 : sav ≤ 120) :
    0 < propagating_flux beta sav ∧
    (∀ beta2, beta ≤ beta2 → beta2 ≤ 0.02 →
      propagating_flux beta sav ≤ propagating_flux beta2 sav) ∧
    (∀ sav2, sav ≤ sav2 → sav2 ≤ 120 →
      propagating_flux beta sav ≤ propagating_flux beta sav2) ∧
    (∀ factor, 1 ≤ factor → factor ≤ 5 →
      propagating_flux beta sav ≤ propagating_flux (beta * factor) sav ∧
      propagating_flux beta sav ≤ propagating_flux beta (sav * factor)) := by
  refine ⟨propagating_flux_pos hs1,
    fun beta2 h12 _ => propagating_flux_mono_beta hs1 h12,
    fun sav2 h12 _ => propagating_flux_mono_sav hb1 hs1 h12,
    fun factor hf1 hf5 => ⟨?_, ?_⟩⟩
  · exact propagating_flux_mono_beta hs1 (by nlinarith)
  · exact propagating_flux_mono_sav hb1 hs1 (by nlinarith)

/-- Witness for C5 at `beta = 1e-3`, `sav = 5`, comparison points
`beta2 = 0.02`, `sav2 = 120`, `factor = 5`. -/
theorem claim_C5_witness :
    0 < propagating_flux 0.001 5 ∧
    propagating_flux 0.001 5 ≤ propagating_flux 0.02 5 ∧
    propagating_flux 0.001 5 ≤ propagating_flux 0.001 120 ∧
    propagating_flux 0.001 5 ≤ propagating_flux (0.001 * 5) 5 := by
  have h := claim_C5_propagating_flux 0.001 5 (by norm_num) (by norm_num)
    (by norm_num) (by norm_num)
  exact ⟨h.1, h.2.1 0.02 (by norm_num) (by norm_num),
    h.2.2.1 120 (by norm_num) (by norm_num),
    (h.2.2.2 5 (by norm_num) (by norm_num)).1⟩

/-! ### Claim C8: the composed reaction velocity at relative packing ratio 5 -/
/-- `exp x ≤ 1/(1-x)` for `0 ≤ x < 1`. -/
lemma exp_le_inv_one_sub {x : ℝ} (h1 : x < 1) : Real.exp x ≤ 1 / (1 - x) := by
  have h2 : 1 - x ≤ Real.exp (-x) := by
    have := Real.add_one_le_exp (-x)
    linarith
  have h3 : (0:ℝ) < 1 - x := by linarith
  have h5 : (1 - x) * Real.exp x ≤ 1 := by
    have h4 := mul_le_mul_of_nonneg_right h2 (Real.exp_pos x).le
    rwa [← Real.exp_add, neg_add_cancel, Real.exp_zero] at h4
  rw [le_div_iff h3]
  linarith

lemma exp_282_lt : Real.exp 2.82 < 18.24 := by
  have h1 : Real.exp (0.1025:ℝ) ≤ 1 / (1 - 0.1025) := exp_le_inv_one_sub (by norm_num)
  have h2 : Real.exp (0.82:ℝ) = Real.exp (0.1025:ℝ) ^ (8:ℕ) := by
    rw [← Real.exp_nat_mul]
    norm_num
  have h3 : Real.exp (0.82:ℝ) ≤ (1 / (1 - 0.1025:ℝ)) ^ (8:ℕ) := by
    rw [h2]
    exact pow_le_pow_left (Real.exp_pos _).le h1 8
  have h4 : Real.exp (2:ℝ) = Real.exp 1 ^ (2:ℕ) := by
    rw [← Real.exp_nat_mul]
    norm_num
  have h5 : Real.exp (2:ℝ) < 2.7182818286 ^ (2:ℕ) := by
    rw [h4]
    exact pow_lt_pow_left Real.exp_one_lt_d9 (Real.exp_pos 1).le (by norm_num)
  have h6 : Real.exp (2.82:ℝ) = Real.exp 2 * Real.exp 0.82 := by
    rw [← Real.exp_add]
    norm_num
  have h7 : Real.exp (2.82:ℝ) < 2.7182818286 ^ (2:ℕ) * (1 / (1 - 0.1025:ℝ)) ^ (8:ℕ) := by
    rw [h6]
    calc Real.exp 2 * Real.exp 0.82 ≤ Real.exp 2 * (1 / (1 - 0.1025:ℝ)) ^ (8:ℕ) :=
          mul_le_mul_of_nonneg_left h3 (Real.exp_pos 2).le
      _ < 2.7182818286 ^ (2:ℕ) * (1 / (1 - 0.1025:ℝ)) ^ (8:ℕ) :=
          mul_lt_mul_of_pos_right h5 (by positivity)
  calc Real.exp (2.82:ℝ) < 2.7182818286 ^ (2:ℕ) * (1 / (1 - 0.1025:ℝ)) ^ (8:ℕ) := h7
    _ < 18.24 := by norm_num

lemma log_five_gt : (1.6:ℝ) < Real.log 5 := by
  have h1 : Real.exp (1.6:ℝ) ^ (5:ℕ) = Real.exp 8 := by
    rw [← Real.exp_nat_mul]
    norm_num
  have h2 : Real.exp (8:ℝ) = Real.exp 1 ^ (8:ℕ) := by
    rw [← Real.exp_nat_mul]
    norm_num
  have h3 : Real.exp (8:ℝ) < 3125 := by
    rw [h2]
    calc Real.exp 1 ^ (8:ℕ) < 2.7182818286 ^ (8:ℕ) :=
          pow_lt_pow_left Real.exp_one_lt_d9 (Real.exp_pos 1).le (by norm_num)
      _ < 3125 := by norm_num
  have h4 : Real.exp (1.6:ℝ) < 5 := by
    by_contra hcon
    push_neg at hcon
    have h5 : (5:ℝ) ^ (5:ℕ) ≤ Real.exp (1.6:ℝ) ^ (5:ℕ) :=
      pow_le_pow_left (by norm_num) hcon 5
    rw [h1] at h5
    norm_num at h5
    linarith
  rw [Real.lt_log_iff_exp_lt (by norm_num : (0:ℝ) < 5)]
  exact h4

lemma log_five_le : Real.log 5 ≤ 4 := by
  have := Real.log_le_sub_one_of_pos (show (0:ℝ) < 5 by norm_num)
  linarith

lemma rpow_15_three_halves : (58:ℝ) ≤ (15:ℝ) ^ (1.5:ℝ) := by
  have h0 : (0:ℝ) ≤ (15:ℝ) ^ (1.5:ℝ) := Real.rpow_nonneg (by norm_num) _
  have hsq : ((15:ℝ) ^ (1.5:ℝ)) ^ (2:ℕ) = 3375 := by
    rw [← Real.rpow_natCast ((15:ℝ) ^ (1.5:ℝ)) 2, ← Real.rpow_mul (by norm_num : (0:ℝ) ≤ 15)]
    rw [show ((1.5:ℝ) * (2:ℕ)) = ((3:ℕ):ℝ) by norm_num, Real.rpow_natCast]
    norm_num
  nlinarith [hsq, h0]

lemma rpow_15_three_quarters : (7.6:ℝ) ≤ (15:ℝ) ^ (0.75:ℝ) := by
  have h0 : (0:ℝ) ≤ (15:ℝ) ^ (0.75:ℝ) := Real.rpow_nonneg (by norm_num) _
  have hq : ((15:ℝ) ^ (0.75:ℝ)) ^ (4:ℕ) = 3375 := by
    rw [← Real.rpow_natCast ((15:ℝ) ^ (0.75:ℝ)) 4, ← Real.rpow_mul (by norm_num : (0:ℝ) ≤ 15)]
    rw [show ((0.75:ℝ) * (4:ℕ)) = ((3:ℕ):ℝ) by norm_num, Real.rpow_natCast]
    norm_num
  by_contra hcon
  push_neg at hcon
  have h1 : (0:ℝ) < 7.6 - (15:ℝ) ^ (0.75:ℝ) := by linarith
  have h2 : (0:ℝ) < 7.6 + (15:ℝ) ^ (0.75:ℝ) := by linarith
  nlinarith [mul_pos h1 h2, sq_nonneg (((15:ℝ) ^ (0.75:ℝ)) ^ 2 - 57.76)]


/-- Claim C8: for every SAV above 15, the composed reaction velocity
`optimum_reaction_velocity (maximum_reaction_velocity SAV) SAV 5` exceeds
0.5. -/
theorem claim_C8_reaction_velocity_tail (SAV : ℝ) (h15 : 15 < SAV) :
    0.5 < optimum_reaction_velocity (maximum_reaction_velocity SAV) SAV 5 := by
  have hS0 : (0:ℝ) < SAV := by linarith
  simp only [optimum_reaction_velocity]
  set a := 8.9033 * SAV ^ (-0.7913:ℝ) with hadef
  have hra : (0:ℝ) < SAV ^ (-0.7913:ℝ) := Real.rpow_pos_of_pos hS0 _
  have ha_pos : 0 < a := by rw [hadef]; positivity
  have hSp : (7.6:ℝ) ≤ SAV ^ (0.7913:ℝ) := by
    calc (7.6:ℝ) ≤ (15:ℝ) ^ (0.75:ℝ) := rpow_15_three_quarters
      _ ≤ (15:ℝ) ^ (0.7913:ℝ) :=
          Real.rpow_le_rpow_of_exponent_le (by norm_num) (by norm_num)
      _ ≤ SAV ^ (0.7913:ℝ) := Real.rpow_le_rpow (by norm_num) h15.le (by norm_num)
  have ha_le : a ≤ 1.1715 := by
    rw [hadef, Real.rpow_neg hS0.le]
    have hinv : (SAV ^ (0.7913:ℝ))⁻¹ ≤ (7.6:ℝ)⁻¹ :=
      inv_le_inv_of_le (by norm_num) hSp
    calc 8.9033 * (SAV ^ (0.7913:ℝ))⁻¹ ≤ 8.9033 * (7.6:ℝ)⁻¹ :=
          mul_le_mul_of_nonneg_left hinv (by norm_num)
      _ ≤ 1.1715 := by norm_num
  have hmv : (9.12:ℝ) ≤ maximum_reaction_velocity SAV := by
    unfold maximum_reaction_velocity
    rw [if_neg (not_lt.mpr hS0.le)]
    have h58 : (58:ℝ) ≤ SAV ^ (1.5:ℝ) := by
      calc (58:ℝ) ≤ (15:ℝ) ^ (1.5:ℝ) := rpow_15_three_halves
        _ ≤ SAV ^ (1.5:ℝ) := Real.rpow_le_rpow (by norm_num) h15.le (by norm_num)
    have hx : SAV ^ (-1.5:ℝ) = (SAV ^ (1.5:ℝ))⁻¹ := Real.rpow_neg hS0.le _
    have hpos15 : (0:ℝ) < SAV ^ (-1.5:ℝ) := Real.rpow_pos_of_pos hS0 _
    have hinv : (SAV ^ (1.5:ℝ))⁻¹ ≤ (58:ℝ)⁻¹ := inv_le_inv_of_le (by norm_num) h58
    have hden_pos : (0:ℝ) < 0.0591 + 2.926 * SAV ^ (-1.5:ℝ) := by positivity
    have hden_ub : 0.0591 + 2.926 * SAV ^ (-1.5:ℝ) ≤ 0.0591 + 2.926 * (58:ℝ)⁻¹ := by
      rw [hx]
      nlinarith
    calc (9.12:ℝ) ≤ 1 / (0.0591 + 2.926 * (58:ℝ)⁻¹) := by norm_num
      _ ≤ 1 / (0.0591 + 2.926 * SAV ^ (-1.5:ℝ)) :=
          one_div_le_one_div_of_le hden_pos hden_ub
  have hcomb : (5:ℝ) ^ a * Real.exp (a * (1 - 5)) = Real.exp (a * (Real.log 5 - 4)) := by
    rw [Real.rpow_def_of_pos (by norm_num : (0:ℝ) < 5) a, ← Real.exp_add]
    congr 1
    ring
  have hlog1 : (1.6:ℝ) < Real.log 5 := log_five_gt
  have hlog2 : Real.log 5 ≤ 4 := log_five_le
  have hE1 : 1.1715 * (Real.log 5 - 4) ≤ a * (Real.log 5 - 4) :=
    mul_le_mul_of_nonpos_right ha_le (by linarith)
  have hE : (-2.8116:ℝ) < a * (Real.log 5 - 4) := by nlinarith
  have hexp1 : Real.exp (-2.8116:ℝ) < Real.exp (a * (Real.log 5 - 4)) :=
    Real.exp_lt_exp.mpr hE
  have hexp2 : (1:ℝ)/18.24 < Real.exp (-2.8116:ℝ) := by
    rw [Real.exp_neg]
    have h282 : Real.exp (2.8116:ℝ) < 18.24 :=
      lt_of_le_of_lt (Real.exp_le_exp.mpr (by norm_num)) exp_282_lt
    rw [one_div]
    exact (inv_lt_inv (by norm_num) (Real.exp_pos _)).mpr h282
  calc (0.5:ℝ) = 9.12 * (1/18.24) := by norm_num
    _ < 9.12 * Real.exp (-2.8116:ℝ) := mul_lt_mul_of_pos_left hexp2 (by norm_num)
    _ < 9.12 * Real.exp (a * (Real.log 5 - 4)) := mul_lt_mul_of_pos_left hexp1 (by norm_num)
    _ ≤ maximum_reaction_velocity SAV * Real.exp (a * (Real.log 5 - 4)) :=
        mul_le_mul_of_nonneg_right hmv (Real.exp_pos _).le
    _ = maximum_reaction_velocity SAV * ((5:ℝ) ^ a * Real.exp (a * (1 - 5))) := by
        rw [hcomb]
    _ = maximum_reaction_velocity SAV * (5:ℝ) ^ a * Real.exp (a * (1 - 5)) := by
        ring


/-- Witness for C8 at `SAV = 16`. -/
theorem claim_C8_witness :
    0.5 < optimum_reaction_velocity (maximum_reaction_velocity 16) 16 5 :=
  claim_C8_reaction_velocity_tail 16 (by norm_num)

/-! ### Claim C4: fraction burnt stays in [0,1] and is antitone in moisture -/
lemma frac_burnt_base_nonneg (minm midm lc ls mc ms m : ℝ) :
    0 ≤ frac_burnt_base minm midm lc ls mc ms m := by
  unfold frac_burnt_base
  split_ifs <;> first | exact np_clip01_nonneg _ | norm_num

lemma frac_burnt_base_le_one (minm midm lc ls mc ms m : ℝ) :
    frac_burnt_base minm midm lc ls mc ms m ≤ 1 := by
  unfold frac_burnt_base
  split_ifs <;> first | exact np_clip01_le_one _ | norm_num

lemma frac_burnt_base_eq_dry {minm midm m : ℝ} (lc ls mc ms : ℝ)
    (hmm : minm ≤ midm) (h : m ≤ minm) :
    frac_burnt_base minm midm lc ls mc ms m = 1 := by
  unfold frac_burnt_base
  rw [if_neg (by rintro ⟨h1, _⟩; linarith), if_neg (by rintro ⟨h1, _⟩; linarith), if_pos h]

lemma frac_burnt_base_eq_low {minm midm m : ℝ} (lc ls mc ms : ℝ)
    (h1 : minm < m) (h2 : m ≤ midm) :
    frac_burnt_base minm midm lc ls mc ms m = np_clip (lc - ls * m) 0 1 := by
  unfold frac_burnt_base
  rw [if_neg (by rintro ⟨ha, _⟩; linarith), if_pos ⟨h1, h2⟩]

lemma frac_burnt_base_eq_mid {minm midm m : ℝ} (lc ls mc ms : ℝ)
    (h1 : midm < m) (h2 : m ≤ 1) :
    frac_burnt_base minm midm lc ls mc ms m = np_clip (mc - ms * m) 0 1 := by
  unfold frac_burnt_base
  rw [if_pos ⟨h1, h2⟩]

lemma frac_burnt_base_antitone {minm midm lc ls mc ms m1 m2 : ℝ}
    (hls : 0 ≤ ls) (hms : 0 ≤ ms) (hmm : minm ≤ midm)
    (hbd : mc - ms * midm ≤ lc - ls * midm) (h12 : m1 ≤ m2) (h21 : m2 ≤ 1) :
    frac_burnt_base minm midm lc ls mc ms m2 ≤ frac_burnt_base minm midm lc ls mc ms m1 := by
  rcases le_or_lt m2 minm with hd2 | hd2
  · rw [frac_burnt_base_eq_dry lc ls mc ms hmm hd2,
      frac_burnt_base_eq_dry lc ls mc ms hmm (le_trans h12 hd2)]
  · rcases le_or_lt m2 midm with hl2 | hl2
    · rw [frac_burnt_base_eq_low lc ls mc ms hd2 hl2]
      rcases le_or_lt m1 minm with hd1 | hd1
      · rw [frac_burnt_base_eq_dry lc ls mc ms hmm hd1]
        exact np_clip01_le_one _
      · rw [frac_burnt_base_eq_low lc ls mc ms hd1 (le_trans h12 hl2)]
        exact np_clip01_mono (by nlinarith)
    · rw [frac_burnt_base_eq_mid lc ls mc ms hl2 h21]
      rcases le_or_lt m1 minm with hd1 | hd1
      · rw [frac_burnt_base_eq_dry lc ls mc ms hmm hd1]
        exact np_clip01_le_one _
      · rcases le_or_lt m1 midm with hl1 | hl1
        · rw [frac_burnt_base_eq_low lc ls mc ms hd1 hl1]
          exact np_clip01_mono (by nlinarith)
        · rw [frac_burnt_base_eq_mid lc ls mc ms hl1 (le_trans h12 h21)]
          exact np_clip01_mono (by nlinarith)

/-- Modelled from the spec: the concrete parameter sets of the valid fuel
models live in `parameter_files/fire_parameters.yaml`, outside the source
tree.  `ValidFireParams` captures the well-formedness the spec assumes of
such a parameter set: nonnegative slopes for both linear burnt-fraction
segments, moisture thresholds in order, the low-moisture segment dominating
the mid-moisture segment at the regime boundary, and a mineral fraction in
[0, 1]. -/
def ValidFireParams (p : FireParams) : Prop :=
  (∀ i, 0 ≤ p.low_moisture_slope i) ∧ (∀ i, 0 ≤ p.mid_moisture_slope i) ∧
  (∀ i, p.min_moisture i ≤ p.mid_moisture i) ∧
  (∀ i, p.mid_moisture_coeff i - p.mid_moisture_slope i * p.mid_moisture i ≤
        p.low_moisture_coeff i - p.low_moisture_slope i * p.mid_moisture i) ∧
  0 ≤ p.miner_total ∧ p.miner_total ≤ 1

/-- Claim C4: for every valid parameter set and every effective-moisture
vector in `[0,1]^6`, `calculate_fraction_burnt` produces `frac_burnt` with
every component in [0, 1], and raising any single moisture component (the
others fixed) never increases the corresponding `frac_burnt` component. -/
theorem claim_C4_fraction_burnt (f : Fuel) (hv : ValidFireParams f.params)
    (_hm : ∀ i, 0 ≤ f.effective_moisture i ∧ f.effective_moisture i ≤ 1)
    (c : Fin 6) (m2 : ℝ) (h12 : f.effective_moisture c ≤ m2) (h21 : m2 ≤ 1) :
    (∀ i, 0 ≤ (f.calculate_fraction_burnt).frac_burnt i ∧
      (f.calculate_fraction_burnt).frac_burnt i ≤ 1) ∧
    ({ f with effective_moisture :=
        Function.update f.effective_moisture c m2 }.calculate_fraction_burnt).frac_burnt c
      ≤ (f.calculate_fraction_burnt).frac_burnt c := by
  obtain ⟨hls, hms, hmm, hbd, hmt0, hmt1⟩ := hv
  constructor
  · intro i
    simp only [Fuel.calculate_fraction_burnt]
    have hb0 := frac_burnt_base_nonneg (f.params.min_moisture i) (f.params.mid_moisture i)
      (f.params.low_moisture_coeff i) (f.params.low_moisture_slope i)
      (f.params.mid_moisture_coeff i) (f.params.mid_moisture_slope i) (f.effective_moisture i)
    have hb1 := frac_burnt_base_le_one (f.params.min_moisture i) (f.params.mid_moisture i)
      (f.params.low_moisture_coeff i) (f.params.low_moisture_slope i)
      (f.params.mid_moisture_coeff i) (f.params.mid_moisture_slope i) (f.effective_moisture i)
    constructor
    · split_ifs with hg
      · exact mul_nonneg (le_min (by norm_num) hb0) (by linarith)
      · exact mul_nonneg hb0 (by linarith)
    · split_ifs with hg
      · exact mul_le_one (le_trans (min_le_right _ _) hb1) (by linarith) (by linarith)
      · exact mul_le_one hb1 (by linarith) (by linarith)
  · simp only [Fuel.calculate_fraction_burnt, Function.update_same]
    have hbase : frac_burnt_base (f.params.min_moisture c) (f.params.mid_moisture c)
        (f.params.low_moisture_coeff c) (f.params.low_moisture_slope c)
        (f.params.mid_moisture_coeff c) (f.params.mid_moisture_slope c) m2
      ≤ frac_burnt_base (f.params.min_moisture c) (f.params.mid_moisture c)
        (f.params.low_moisture_coeff c) (f.params.low_moisture_slope c)
        (f.params.mid_moisture_coeff c) (f.params.mid_moisture_slope c)
        (f.effective_moisture c) :=
      frac_burnt_base_antitone (hls c) (hms c) (hmm c) (hbd c) h12 h21
    split_ifs with hg
    · exact mul_le_mul_of_nonneg_right (min_le_min le_rfl hbase) (by linarith)
    · exact mul_le_mul_of_nonneg_right hbase (by linarith)

/-- A concrete valid parameter set (constant across classes) for the C4
witness. -/
def witnessParams : FireParams :=
  { FireParams.zeros with
      min_moisture := fun _ => 0.1
      mid_moisture := fun _ => 0.7
      mid_moisture_coeff := fun _ => 1.09
      mid_moisture_slope := fun _ => 0.98
      low_moisture_coeff := fun _ => 1.12
      low_moisture_slope := fun _ => 0.62
      miner_total := 0.055 }

/-- Witness for C4: constant parameters, uniform moisture 0.3 raised to 0.5
in class 0. -/
theorem claim_C4_witness :
    (∀ i, 0 ≤ (({ Fuel.init witnessParams with effective_moisture :=
          fun _ => 0.3 } : Fuel).calculate_fraction_burnt).frac_burnt i ∧
      (({ Fuel.init witnessParams with effective_moisture :=
          fun _ => 0.3 } : Fuel).calculate_fraction_burnt).frac_burnt i ≤ 1) ∧
    (({ ({ Fuel.init witnessParams with effective_moisture := fun _ => 0.3 } : Fuel) with
        effective_moisture := Function.update
          (fun _ => (0.3:ℝ)) (0 : Fin 6) 0.5 }.calculate_fraction_burnt).frac_burnt (0 : Fin 6))
      ≤ (({ Fuel.init witnessParams with effective_moisture :=
          fun _ => 0.3 } : Fuel).calculate_fraction_burnt).frac_burnt (0 : Fin 6) :=
  claim_C4_fraction_burnt
    ({ Fuel.init witnessParams with effective_moisture := fun _ => 0.3 })
    (by
      refine ⟨fun i => ?_, fun i => ?_, fun i => ?_, fun i => ?_, ?_, ?_⟩ <;>
        norm_num [witnessParams, Fuel.init, FireParams.zeros])
    (fun i => by norm_num)
    0 0.5 (by norm_num) (by norm_num)
